import Mathlib

/-!
Shallow embedding of the container-runtime abstraction layer of venvoy
(`src/venvoy/container_manager.py`) and proofs about the claims of its
specification.

Modelling conventions:
* Python strings are Lean `String`s; `str.strip()`, `str.split`, substring
  tests (`x in s`) and `str.startswith` are modelled by executable helper
  functions defined below on the underlying character lists.
* Each `subprocess.run` call site is modelled by a `SpawnOutcome` field of an
  explicit "world" record: the call either returns captured stdout/stderr and a
  return code, or fails to spawn (FileNotFoundError / PermissionError), or — for
  call sites that pass a timeout — times out (TimeoutExpired).  Call sites that
  do not pass `timeout=` cannot raise TimeoutExpired, so they use the restricted
  type `SpawnOutcomeNT`.
* Fallible Python control flow is modelled with `Except PyExc`; an uncaught
  Python exception is an `.error`, a `return v` is `.ok v`.
-/

namespace Venvoy

/-- The `ContainerRuntime` enum of `container_manager.py`. -/
inductive ContainerRuntime
  | DOCKER
  | APPTAINER
  | SINGULARITY
  | PODMAN
deriving DecidableEq, Repr

/-- Outcome of a `subprocess.run` call site that passes `timeout=`. -/
inductive SpawnOutcome
  | ok (stdout stderr : String) (returncode : Int)
  | fileNotFound
  | permissionDenied
  | timeoutExpired
deriving DecidableEq, Repr

/-- Outcome of a `subprocess.run` call site with no `timeout=` argument:
`subprocess.TimeoutExpired` is only raised when a timeout is given, so it is
absent here. -/
inductive SpawnOutcomeNT
  | ok (stdout stderr : String) (returncode : Int)
  | fileNotFound
  | permissionDenied
deriving DecidableEq, Repr

/-- The Python exceptions that can travel through the embedded control flow. -/
inductive PyExc
  | calledProcessError
  | fileNotFoundError
  | permissionError
  | timeoutExpired
  | typeError (msg : String)
  | runtimeError (msg : String)
deriving DecidableEq, Repr

/-! ### Python string primitives -/

/-- Boolean prefix test on character lists. -/
def isPrefixC : List Char → List Char → Bool
  | [], _ => true
  | _ :: _, [] => false
  | a :: as, b :: bs => a == b && isPrefixC as bs

/-- Boolean contiguous-substring test on character lists: does `pat` occur
inside `l`? -/
def isInfixC (pat : List Char) : List Char → Bool
  | [] => pat.isEmpty
  | x :: xs => isPrefixC pat (x :: xs) || isInfixC pat xs

/-- Python `needle in haystack` substring membership. -/
def strContains (haystack needle : String) : Bool :=
  isInfixC needle.data haystack.data

/-- Python `s.startswith(p)`. -/
def pyStartsWith (s p : String) : Bool :=
  isPrefixC p.data s.data

/-- Python `s.strip()` on a character list (leading and trailing whitespace
removed). -/
def pyStripList (l : List Char) : List Char :=
  ((l.dropWhile Char.isWhitespace).reverse.dropWhile Char.isWhitespace).reverse

/-- Python `s.strip()`. -/
def pyStrip (s : String) : String :=
  ⟨pyStripList s.data⟩

/-- Split a character list on a separator character; like Python
`s.split(c)` this always returns at least one (possibly empty) segment. -/
def splitOnChar (c : Char) : List Char → List (List Char)
  | [] => [[]]
  | x :: xs =>
    if x = c then [] :: splitOnChar c xs
    else
      match splitOnChar c xs with
      | [] => [[x]]
      | s :: ss => (x :: s) :: ss

/-- Python `s.split(c)` for a one-character separator. -/
def pySplit (c : Char) (s : String) : List String :=
  (splitOnChar c s.data).map List.asString

/-- Python `s.split(c, 1)` (maxsplit 1), for the case where `c` occurs in `s`:
the part before the first `c` and everything after it. -/
def pySplit1 (c : Char) (s : String) : String × String :=
  ((s.data.takeWhile (· ≠ c)).asString, ((s.data.dropWhile (· ≠ c)).drop 1).asString)

/-- Python `s.split()` with no separator: split on whitespace runs, dropping
empty segments. -/
def pySplitWs (s : String) : List String :=
  (s.split Char.isWhitespace).filter (· ≠ "")

/-- Python `s.lower()` (character-wise lowering). -/
def pyLower (s : String) : String :=
  ⟨s.data.map Char.toLower⟩

/-! ### Image-name normalization (`_normalize_image_name`, lines 349-386) -/

/-- The qualification step of `_normalize_image_name` (lines 381-386): prepend
`docker.io/` when the reference has a repo path (`/` present) and is not
already qualified. -/
def normalizeQualify (image_name : String) : String :=
  if !(pyStartsWith image_name "docker.io/") && strContains image_name "/" then
    "docker.io/" ++ image_name
  else image_name

/-- `_normalize_image_name(runtime, image_name)`.  For `DOCKER` the
`needs_normalization` flag is computed from subprocess probes of
`docker buildx` (lines 360-379); that probe result is abstracted here as the
boolean `dockerSuspectedShim`.  For `PODMAN` normalization always applies; for
Apptainer/Singularity it never does. -/
def _normalize_image_name (runtime : ContainerRuntime) (dockerSuspectedShim : Bool)
    (image_name : String) : String :=
  let needs_normalization : Bool :=
    match runtime with
    | .PODMAN => true
    | .DOCKER => dockerSuspectedShim
    | .APPTAINER => false
    | .SINGULARITY => false
  if needs_normalization then normalizeQualify image_name else image_name

/-! ### ps-output parsing (`_parse_docker_ps_output`, lines 868-892) -/

/-- One parsed container row of `docker ps`/`podman ps` pipe-delimited output. -/
structure PsContainer where
  id : String
  image : String
  command : String
  created : String
  status : String
  ports : String
  name : String
deriving DecidableEq, Repr

/-- Body of the parsing loop of `_parse_docker_ps_output` (lines 875-890):
skip whitespace-only lines, drop lines with fewer than 7 pipe-delimited parts,
and build the record from the first seven parts, each stripped. -/
def psLineRecord (line : String) : Option PsContainer :=
  if pyStrip line = "" then none
  else
    let parts := pySplit '|' line
    if parts.length ≥ 7 then
      some { id := pyStrip (parts.getD 0 ""), image := pyStrip (parts.getD 1 ""),
             command := pyStrip (parts.getD 2 ""), created := pyStrip (parts.getD 3 ""),
             status := pyStrip (parts.getD 4 ""), ports := pyStrip (parts.getD 5 ""),
             name := pyStrip (parts.getD 6 "") }
    else none

/-- `_parse_docker_ps_output(output)`: strip the output, split into lines,
return `[]` early when the first line is blank (lines 870-872), and otherwise
run the parsing loop over all lines. -/
def _parse_docker_ps_output (output : String) : List PsContainer :=
  match pySplit '\n' (pyStrip output) with
  | [] => []
  | l0 :: rest =>
    if pyStrip l0 = "" then [] else (l0 :: rest).filterMap psLineRecord

/-- Per-line behaviour in the words of claim C9: blank lines are skipped,
lines with fewer than seven pipe-delimited parts are dropped, and a line with
at least seven parts yields a record whose fields are the first seven
pipe-delimited fields stripped of surrounding whitespace. -/
def psLineRecordClaim (line : String) : Option PsContainer :=
  if pyStrip line = "" then none
  else
    let parts := pySplit '|' line
    if parts.length ≥ 7 then
      some { id := pyStrip (parts.getD 0 ""), image := pyStrip (parts.getD 1 ""),
             command := pyStrip (parts.getD 2 ""), created := pyStrip (parts.getD 3 ""),
             status := pyStrip (parts.getD 4 ""), ports := pyStrip (parts.getD 5 ""),
             name := pyStrip (parts.getD 6 "") }
    else none

/-- The parsing behaviour claim C9 describes: apply the per-line rule to every
line of the stripped output, with no early exit. -/
def psParseClaim (output : String) : List PsContainer :=
  (pySplit '\n' (pyStrip output)).filterMap psLineRecordClaim

/-! ### Runtime availability probe (`_check_runtime_available`, lines 207-293)

Each field of `ProbeWorld` fixes the outcome of one `subprocess.run` call
site (or one `shutil.which` lookup) of the probe.  Only the first
`docker --version` call passes `timeout=5`, so only it can time out. -/

structure ProbeWorld where
  whichDocker : Option String
  whichPodman : Option String
  whichApptainer : Option String
  whichSingularity : Option String
  /-- `[docker_path, "--version"]` with `timeout=5` (line 217). -/
  dockerVersionT : SpawnOutcome
  /-- `[docker_path, "--version"]` with `check=True` (line 225). -/
  dockerVersion : SpawnOutcomeNT
  /-- `[docker_path, "buildx", "version"]` with `check=True` (line 233). -/
  dockerBuildx : SpawnOutcomeNT
  /-- `[docker_path, "info"]` with `check=True` in the buildx-ok branch (line 245). -/
  dockerInfo : SpawnOutcomeNT
  /-- `[docker_path, "info"]` with `check=True` in the buildx-except branch (line 259). -/
  dockerInfoFallback : SpawnOutcomeNT
  /-- `[apptainer_path, "--version"]` with `check=True` (line 267). -/
  apptainerVersion : SpawnOutcomeNT
  /-- `[singularity_path, "--version"]` with `check=True` (line 275). -/
  singularityVersion : SpawnOutcomeNT
  /-- `[podman_path, "--version"]` with `check=True` (line 286). -/
  podmanVersion : SpawnOutcomeNT
deriving DecidableEq, Repr

/-- The `except (CalledProcessError, FileNotFoundError)` branch of the buildx
probe (lines 253-262): prefer Podman if it exists, otherwise trust
`docker info`.  A `CalledProcessError` from the fallback `docker info` is
caught by the method-level handler (line 292) and yields `False`; a
`PermissionError` is caught by no handler and propagates. -/
def checkDockerBuildxExcept (w : ProbeWorld) : Except PyExc Bool :=
  match w.whichPodman with
  | some _ => .ok false
  | none =>
    match w.dockerInfoFallback with
    | .ok _ _ rc => if rc ≠ 0 then .ok false else .ok true
    | .fileNotFound => .ok false
    | .permissionDenied => .error .permissionError

/-- The buildx disambiguation step (lines 232-262).  A failing `check=True`
call inside the `try` (buildx itself or the nested `docker info`) lands in
`checkDockerBuildxExcept`. -/
def checkDockerBuildx (w : ProbeWorld) : Except PyExc Bool :=
  match w.dockerBuildx with
  | .ok out err rc =>
    if rc ≠ 0 then checkDockerBuildxExcept w
    else
      if strContains (out ++ err) "github.com/docker/buildx" ||
          strContains (out ++ err) "buildx v" then
        match w.dockerInfo with
        | .ok _ _ irc => if irc ≠ 0 then checkDockerBuildxExcept w else .ok true
        | .fileNotFound => checkDockerBuildxExcept w
        | .permissionDenied => .error .permissionError
      else .ok false
  | .fileNotFound => checkDockerBuildxExcept w
  | .permissionDenied => .error .permissionError

/-- The second `docker --version` call with `check=True` (lines 225-229): a
non-zero exit raises `CalledProcessError`, caught by the method-level handler
(line 292) into `False`; the dead `returncode != 0` re-check also yields
`False`. -/
def checkDockerStep2 (w : ProbeWorld) : Except PyExc Bool :=
  match w.dockerVersion with
  | .ok _ _ rc => if rc ≠ 0 then .ok false else checkDockerBuildx w
  | .fileNotFound => .ok false
  | .permissionDenied => .error .permissionError

/-- The Docker branch of `_check_runtime_available` (lines 210-262).  The
first `--version` call (timeout 5, line 217) only checks the output for the
substring "podman"; its handler catches `TimeoutExpired`, `FileNotFoundError`
and `CalledProcessError` with `pass` — a `PermissionError` propagates. -/
def checkDockerAvailable (w : ProbeWorld) : Except PyExc Bool :=
  match w.whichDocker with
  | none => .ok false
  | some _ =>
    match w.dockerVersionT with
    | .ok out err _ =>
      if strContains (pyLower (out ++ err)) "podman" then .ok false
      else checkDockerStep2 w
    | .timeoutExpired => checkDockerStep2 w
    | .fileNotFound => checkDockerStep2 w
    | .permissionDenied => .error .permissionError

/-- The PATH-lookup-plus-version pattern shared by the Apptainer, Singularity
and Podman branches (lines 263-289). -/
def checkSimpleAvailable (whichPath : Option String) (version : SpawnOutcomeNT) :
    Except PyExc Bool :=
  match whichPath with
  | none => .ok false
  | some _ =>
    match version with
    | .ok _ _ rc => if rc ≠ 0 then .ok false else .ok true
    | .fileNotFound => .ok false
    | .permissionDenied => .error .permissionError

/-- `_check_runtime_available(runtime)` (lines 207-293). -/
def _check_runtime_available (w : ProbeWorld) : ContainerRuntime → Except PyExc Bool
  | .DOCKER => checkDockerAvailable w
  | .APPTAINER => checkSimpleAvailable w.whichApptainer w.apptainerVersion
  | .SINGULARITY => checkSimpleAvailable w.whichSingularity w.singularityVersion
  | .PODMAN => checkSimpleAvailable w.whichPodman w.podmanVersion

/-! ### Runtime selection (`_detect_best_runtime`, lines 65-112) -/

/-- The `runtime_map` dict of `_detect_best_runtime` (lines 71-76), as a
case-sensitive lookup. -/
def runtime_map : String → Option ContainerRuntime
  | "docker" => some .DOCKER
  | "apptainer" => some .APPTAINER
  | "singularity" => some .SINGULARITY
  | "podman" => some .PODMAN
  | _ => none

/-- The general preference chain of `_detect_best_runtime` (lines 94-112):
Apptainer, then Singularity, then Podman, then Docker; if none is available,
fall back to environment-marker inference (`_detect_runtime_from_environment`,
abstracted as `envRuntime`), and finally raise `RuntimeError`. -/
def detectGeneral (w : ProbeWorld) (envRuntime : Option ContainerRuntime) :
    Except PyExc ContainerRuntime :=
  match _check_runtime_available w .APPTAINER with
  | .error e => .error e
  | .ok true => .ok .APPTAINER
  | .ok false =>
  match _check_runtime_available w .SINGULARITY with
  | .error e => .error e
  | .ok true => .ok .SINGULARITY
  | .ok false =>
  match _check_runtime_available w .PODMAN with
  | .error e => .error e
  | .ok true => .ok .PODMAN
  | .ok false =>
  match _check_runtime_available w .DOCKER with
  | .error e => .error e
  | .ok true => .ok .DOCKER
  | .ok false =>
  match envRuntime with
  | some r => .ok r
  | none => .error (.runtimeError
      "No supported container runtime found. Please install Docker, Apptainer, Singularity, or Podman.")

/-- The HPC-specific preference block of `_detect_best_runtime` (lines
83-89): Apptainer, Singularity, Podman — falling through to the general chain
when none of the three is available. -/
def detectHpc (w : ProbeWorld) (envRuntime : Option ContainerRuntime) :
    Except PyExc ContainerRuntime :=
  match _check_runtime_available w .APPTAINER with
  | .error e => .error e
  | .ok true => .ok .APPTAINER
  | .ok false =>
  match _check_runtime_available w .SINGULARITY with
  | .error e => .error e
  | .ok true => .ok .SINGULARITY
  | .ok false =>
  match _check_runtime_available w .PODMAN with
  | .error e => .error e
  | .ok true => .ok .PODMAN
  | .ok false => detectGeneral w envRuntime

/-- `_detect_best_runtime` (lines 65-112).  `hostRuntime` models
`os.environ.get("VENVOY_HOST_RUNTIME")` (`none` when unset); the Python
truthiness test `if host_runtime:` makes the empty string behave like unset,
and a set value is used only when it is a key of `runtime_map` (lines 69-78).
`isHpc` abstracts `_is_hpc_environment()` and `envRuntime` abstracts
`_detect_runtime_from_environment()`. -/
def _detect_best_runtime (hostRuntime : Option String) (isHpc : Bool)
    (w : ProbeWorld) (envRuntime : Option ContainerRuntime) :
    Except PyExc ContainerRuntime :=
  match (match hostRuntime with
         | some h => if h = "" then none else runtime_map h
         | none => none) with
  | some r => .ok r
  | none => if isHpc then detectHpc w envRuntime else detectGeneral w envRuntime

/-- The first available runtime in the preference order Apptainer,
Singularity, Podman, Docker — the order claim C3 states. -/
def firstPreferred (avail : ContainerRuntime → Bool) : Option ContainerRuntime :=
  if avail .APPTAINER then some .APPTAINER
  else if avail .SINGULARITY then some .SINGULARITY
  else if avail .PODMAN then some .PODMAN
  else if avail .DOCKER then some .DOCKER
  else none

/-- No `subprocess.run` call site of the probe world reports a
permission-denied spawn failure (`PermissionError` is the one spawn error the
probe's `except` clauses do not list). -/
def ProbeWorld.noPermissionDenied (w : ProbeWorld) : Prop :=
  w.dockerVersionT ≠ .permissionDenied ∧ w.dockerVersion ≠ .permissionDenied ∧
  w.dockerBuildx ≠ .permissionDenied ∧ w.dockerInfo ≠ .permissionDenied ∧
  w.dockerInfoFallback ≠ .permissionDenied ∧ w.apptainerVersion ≠ .permissionDenied ∧
  w.singularityVersion ≠ .permissionDenied ∧ w.podmanVersion ≠ .permissionDenied

/-! ### Run-command builders (lines 618-813)

Dictionaries (`volumes`, `ports`, `environment`) are insertion-ordered in
Python and modelled as association lists.  `command`, `working_dir` model the
`Optional[str]` parameters; the Python truthiness guards (`if command:`,
`if name:`, `if working_dir:`) make the empty string behave like `None`. -/

/-- `_build_docker_run_command` (lines 649-689). -/
def _build_docker_run_command (image name : String) (command : Option String)
    (volumes ports environment : List (String × String)) (detach : Bool)
    (working_dir : Option String) : List String :=
  ["docker", "run"]
  ++ (if name ≠ "" then ["--name", name] else [])
  ++ (if detach then ["-d"] else [])
  ++ volumes.foldr (fun p acc => ["-v", p.1 ++ ":" ++ p.2] ++ acc) []
  ++ ports.foldr (fun p acc => ["-p", p.1 ++ ":" ++ p.2] ++ acc) []
  ++ environment.foldr (fun p acc => ["-e", p.1 ++ "=" ++ p.2] ++ acc) []
  ++ (match working_dir with
      | some wd => if wd ≠ "" then ["-w", wd] else []
      | none => [])
  ++ [image]
  ++ (match command with
      | some c => if c ≠ "" then ["sh", "-c", c] else []
      | none => [])

/-- The SIF cache filename of an image (lines 402, 704): every `/` and `:`
replaced by `-` (the two chained single-character `str.replace` calls, done
here in one character map), suffix `.si` appended. -/
def sifFileName (image : String) : String :=
  (⟨image.data.map (fun c => if c = '/' ∨ c = ':' then '-' else c)⟩ : String) ++ ".si"

/-- `_build_apptainer_run_command` as defined at lines 691-725, with its
actual parameter list: `image, name, command, volumes, ports, environment,
detach` and no `working_dir` parameter.  `sifDir` models `self.sif_dir` and
`sifExists` the `image_path.exists()` test; the returned boolean records
whether `pull_image` was invoked first (it is, exactly when the SIF file does
not exist). -/
def _build_apptainer_run_command (sifDir : String) (sifExists : Bool)
    (image name : String) (command : Option String)
    (volumes ports environment : List (String × String)) (detach : Bool) :
    Bool × List String :=
  let image_path := sifDir ++ "/" ++ sifFileName image
  (!sifExists,
    ["apptainer", "run"]
    ++ volumes.foldr (fun p acc => ["--bind", p.1 ++ ":" ++ p.2] ++ acc) []
    ++ environment.foldr (fun p acc => ["--env", p.1 ++ "=" ++ p.2] ++ acc) []
    ++ [image_path]
    ++ (match command with
        | some c => if c ≠ "" then ["sh", "-c", c] else []
        | none => []))

/-- `_build_singularity_run_command` as defined at lines 727-759, again with
no `working_dir` parameter. -/
def _build_singularity_run_command (image name : String) (command : Option String)
    (volumes ports environment : List (String × String)) (detach : Bool) :
    List String :=
  ["singularity", "exec"]
  ++ volumes.foldr (fun p acc => ["--bind", p.1 ++ ":" ++ p.2] ++ acc) []
  ++ environment.foldr (fun p acc => ["--env", p.1 ++ "=" ++ p.2] ++ acc) []
  ++ ["docker://" ++ image]
  ++ (match command with
      | some c =>
        if c ≠ "" then ["/bin/bash", "-c", c] else ["/usr/local/bin/venvoy-entrypoint"]
      | none => ["/usr/local/bin/venvoy-entrypoint"])

/-- The Podman command-splitting rule (lines 802-811): a multi-word command
with none of the shell metacharacters is split on whitespace; otherwise it is
wrapped in `sh -c`. -/
def podmanCommandArgs (c : String) : List String :=
  if strContains c " " &&
      !(strContains c "&&" || strContains c "||" || strContains c ";" ||
        strContains c "|" || strContains c ">" || strContains c "<") then
    pySplitWs c
  else ["sh", "-c", c]

/-- `_build_podman_run_command` (lines 761-813). -/
def _build_podman_run_command (image name : String) (command : Option String)
    (volumes ports environment : List (String × String)) (detach : Bool)
    (working_dir : Option String) : List String :=
  ["podman", "run"]
  ++ (if name ≠ "" then ["--name", name] else [])
  ++ (if detach then ["-d"] else [])
  ++ ["--userns=keep-id"]
  ++ volumes.foldr (fun p acc => ["-v", p.1 ++ ":" ++ p.2] ++ acc) []
  ++ ports.foldr (fun p acc => ["-p", p.1 ++ ":" ++ p.2] ++ acc) []
  ++ environment.foldr (fun p acc => ["-e", p.1 ++ "=" ++ p.2] ++ acc) []
  ++ (match working_dir with
      | some wd => if wd ≠ "" then ["-w", wd] else []
      | none => [])
  ++ [image]
  ++ (match command with
      | some c => if c ≠ "" then podmanCommandArgs c else []
      | none => [])

/-- `_build_run_command` (lines 618-647).  The dispatcher passes eight
positional arguments (`image, name, command, volumes, ports, environment,
detach, working_dir`) to every per-runtime builder (lines 631-645), but
`_build_apptainer_run_command` (line 691) and `_build_singularity_run_command`
(line 727) accept only seven — their parameter lists end at `detach` — so for
the Apptainer and Singularity runtimes Python raises `TypeError` before the
builder body runs. -/
def _build_run_command (runtime : ContainerRuntime) (sifDir : String) (sifExists : Bool)
    (image name : String) (command : Option String)
    (volumes ports environment : List (String × String)) (detach : Bool)
    (working_dir : Option String) : Except PyExc (List String) :=
  match runtime with
  | .DOCKER => .ok (_build_docker_run_command image name command volumes ports
      environment detach working_dir)
  | .APPTAINER => .error (.typeError
      "_build_apptainer_run_command() takes from 3 to 8 positional arguments but 9 were given")
  | .SINGULARITY => .error (.typeError
      "_build_singularity_run_command() takes from 3 to 8 positional arguments but 9 were given")
  | .PODMAN => .ok (_build_podman_run_command image name command volumes ports
      environment detach working_dir)

/-! ### Image build (`build_image`, lines 894-942) -/

/-- The argument vector `build_image` hands to `subprocess.run` (lines
898-938).  For Apptainer/Singularity, `def_file` abstracts the path returned
by `_convert_dockerfile_to_singularity`. -/
def build_image_cmd (runtime : ContainerRuntime)
    (dockerfile_path tag context_path def_file : String) : List String :=
  match runtime with
  | .DOCKER => ["docker", "build", "-t", tag, "-", dockerfile_path, context_path]
  | .PODMAN => ["podman", "build", "-t", tag, "-", dockerfile_path, context_path]
  | .APPTAINER => ["apptainer", "build", tag ++ ".sif", def_file]
  | .SINGULARITY => ["singularity", "build", tag ++ ".sif", def_file]

/-! ### run_container (lines 429-616), subprocess path for non-Docker runtimes -/

/-- The value `run_container` produces when it does not raise: either the
`MockContainer` stand-in remembering the container name (lines 603-613), or
the bare `False` returned by the method-level `except CalledProcessError`
handler (lines 614-616). -/
inductive RunResult
  | mockContainer (name : String)
  | retFalse
deriving DecidableEq, Repr

/-- The `subprocess` call sites of a non-Docker `run_container` invocation.
None of them passes `timeout=`.  `logs` maps a container id to the outcome of
`podman logs <id>`. -/
structure RunWorld where
  /-- `subprocess.run(cmd, check=True, capture_output=True, text=True)` (line 543). -/
  launch : SpawnOutcomeNT
  whichPodman : Option String
  /-- `podman ps --filter name=<name> --format "ID|Status"` (line 563). -/
  psFiltered : SpawnOutcomeNT
  /-- `podman ps -a --filter name=<name> --format "ID|Status"` (line 583). -/
  psAll : SpawnOutcomeNT
  /-- `podman logs <container_id>` (lines 573, 592). -/
  logs : String → SpawnOutcomeNT

/-- `podman logs` handling (lines 572-574 and 591-593): the stripped stdout on
exit 0, a placeholder otherwise; a spawn failure propagates (the surrounding
`try` catches only `CalledProcessError`). -/
def getLogs (w : RunWorld) (container_id : String) : Except PyExc String :=
  match w.logs container_id with
  | .ok lout _ lrc => .ok (if lrc = 0 then pyStrip lout else "Unable to retrieve logs")
  | .fileNotFound => .error .fileNotFoundError
  | .permissionDenied => .error .permissionError

/-- The loop over `podman ps` output lines (lines 566-579): for each line
containing `|`, split once on `|` into id and status; when the status contains
neither `"Up"` nor (case-insensitively) `"running"`, fetch the logs and raise
`RuntimeError` with them; otherwise keep scanning, and fall through to the
`MockContainer` return when no line fails. -/
def checkPsLines (w : RunWorld) (name : String) : List String → Except PyExc RunResult
  | [] => .ok (.mockContainer name)
  | line :: rest =>
    if strContains line "|" then
      let cid := (pySplit1 '|' line).1
      let status := (pySplit1 '|' line).2
      if !strContains status "Up" && !strContains (pyLower status) "running" then
        match getLogs w cid with
        | .error e => .error e
        | .ok logText => .error (.runtimeError
            ("Container " ++ name ++ " (ID: " ++ cid ++
             ") started but exited immediately. Status: " ++ status ++
             "\nContainer logs:\n" ++ logText))
      else checkPsLines w name rest
    else checkPsLines w name rest

/-- The loop over `podman ps -a` output lines (lines 586-598): every line
containing `|` raises `RuntimeError` with the container's logs; lines without
`|` are skipped, and an empty loop falls through to the `MockContainer`
return. -/
def checkPsLinesAll (w : RunWorld) (name : String) : List String → Except PyExc RunResult
  | [] => .ok (.mockContainer name)
  | line :: rest =>
    if strContains line "|" then
      let cid := (pySplit1 '|' line).1
      let status := (pySplit1 '|' line).2
      match getLogs w cid with
      | .error e => .error e
      | .ok logText => .error (.runtimeError
          ("Container " ++ name ++ " (ID: " ++ cid ++
           ") exited immediately. Status: " ++ status ++
           "\nContainer logs:\n" ++ logText))
    else checkPsLinesAll w name rest

/-- The detached-container verification block (lines 552-600), reached when
`detach` is true and the runtime is Podman: query `podman ps` filtered by the
container name; on a clean non-empty answer scan its lines, otherwise fall
back to `podman ps -a`, and raise when the container is absent there too. -/
def detachVerify (w : RunWorld) (name : String) : Except PyExc RunResult :=
  match w.whichPodman with
  | none => .ok (.mockContainer name)
  | some _ =>
    match w.psFiltered with
    | .fileNotFound => .error .fileNotFoundError
    | .permissionDenied => .error .permissionError
    | .ok out _ rc =>
      if rc = 0 ∧ pyStrip out ≠ "" then
        checkPsLines w name (pySplit '\n' (pyStrip out))
      else
        match w.psAll with
        | .fileNotFound => .error .fileNotFoundError
        | .permissionDenied => .error .permissionError
        | .ok aout _ arc =>
          if arc = 0 ∧ pyStrip aout ≠ "" then
            checkPsLinesAll w name (pySplit '\n' (pyStrip aout))
          else .error (.runtimeError
              ("Container " ++ name ++ " failed to start - not found in container list"))

/-- `run_container` (lines 429-616) for the non-Docker runtimes, i.e. the
`else` branch at lines 537-613 plus the method-level
`except subprocess.CalledProcessError` handler at lines 614-616: normalize the
image name (line 450), build the command vector (line 539, which raises
`TypeError` for Apptainer/Singularity), launch it with `check=True` (line
543 — a non-zero exit raises `CalledProcessError`, caught into `return False`),
verify detached Podman containers, and return the `MockContainer`. -/
def run_container (runtime : ContainerRuntime) (w : RunWorld)
    (sifDir : String) (sifExists : Bool) (image name : String)
    (command : Option String) (volumes ports environment : List (String × String))
    (detach : Bool) (working_dir : Option String) : Except PyExc RunResult :=
  let image' := _normalize_image_name runtime false image
  match _build_run_command runtime sifDir sifExists image' name command volumes
      ports environment detach working_dir with
  | .error e => .error e
  | .ok _cmd =>
    match w.launch with
    | .fileNotFound => .error .fileNotFoundError
    | .permissionDenied => .error .permissionError
    | .ok _ _ rc =>
      if rc ≠ 0 then .ok .retFalse
      else if detach then
        match runtime with
        | .PODMAN => detachVerify w name
        | _ => .ok (.mockContainer name)
      else .ok (.mockContainer name)

/-! ### Concrete worlds used by witnesses and counterexamples -/

/-- A world in which no runtime binary resolves on PATH. -/
def trivialProbeWorld : ProbeWorld where
  whichDocker := none
  whichPodman := none
  whichApptainer := none
  whichSingularity := none
  dockerVersionT := .ok "" "" 0
  dockerVersion := .ok "" "" 0
  dockerBuildx := .ok "" "" 0
  dockerInfo := .ok "" "" 0
  dockerInfoFallback := .ok "" "" 0
  apptainerVersion := .ok "" "" 0
  singularityVersion := .ok "" "" 0
  podmanVersion := .ok "" "" 0

/-- A world in which only genuine Docker is installed and healthy. -/
def dockerOnlyProbeWorld : ProbeWorld :=
  { trivialProbeWorld with
    whichDocker := some "/usr/bin/docker"
    dockerVersionT := .ok "Docker version 24.0.7, build afdd53b" "" 0
    dockerVersion := .ok "Docker version 24.0.7, build afdd53b" "" 0
    dockerBuildx := .ok "github.com/docker/buildx v0.11.2" "" 0
    dockerInfo := .ok "Server: Docker Desktop" "" 0 }

/-- Availability assignment of `dockerOnlyProbeWorld`: only Docker. -/
def availDockerOnly : ContainerRuntime → Bool
  | .DOCKER => true
  | _ => false

/-- A world with a Podman-provided `docker` shim plus a real `podman`. -/
def shimProbeWorld : ProbeWorld :=
  { trivialProbeWorld with
    whichDocker := some "/usr/bin/docker"
    whichPodman := some "/usr/bin/podman"
    dockerVersionT := .ok "podman version 4.9.0" "" 0
    dockerVersion := .ok "podman version 4.9.0" "" 0
    podmanVersion := .ok "podman version 4.9.0" "" 0 }

/-- A world in which spawning `apptainer --version` hits a permission error. -/
def permDeniedProbeWorld : ProbeWorld :=
  { trivialProbeWorld with
    whichApptainer := some "/usr/bin/apptainer"
    apptainerVersion := .permissionDenied }

/-- A run world whose launch subprocess exits with status 2. -/
def failedLaunchRunWorld : RunWorld where
  launch := .ok "" "Error: image not known" 2
  whichPodman := some "/usr/bin/podman"
  psFiltered := .ok "" "" 0
  psAll := .ok "" "" 0
  logs := fun _ => .ok "" "" 0

/-- A run world whose launch succeeds but whose container exits immediately:
`podman ps` reports status `Exited (1) 2 seconds ago`. -/
def exitedRunWorld : RunWorld where
  launch := .ok "abc123def456" "" 0
  whichPodman := some "/usr/bin/podman"
  psFiltered := .ok "abc123def456|Exited (1) 2 seconds ago" "" 0
  psAll := .ok "abc123def456|Exited (1) 2 seconds ago" "" 0
  logs := fun _ => .ok "Traceback: boom" "" 0

/-! ## Theorems -/

/-! ### Helper lemmas about list prefixes and stripping -/

theorem isPrefixC_append_self (l t : List Char) : isPrefixC l (l ++ t) = true := by
  induction l with
  | nil => rfl
  | cons a as ih => simp [isPrefixC, ih]

theorem normalizeQualify_startsWith (s : String) :
    pyStartsWith ("docker.io/" ++ s) "docker.io/" = true := by
  unfold pyStartsWith
  rw [String.data_append]
  exact isPrefixC_append_self _ _

/-- Claim C8 (image normalization idempotence): Podman normalization leaves
`docker.io/library/python:3.11` and the slash-free `python:3.11` unchanged,
qualifies `myorg/myimage:latest` to `docker.io/myorg/myimage:latest`, and is
idempotent on every input. -/
theorem normalize_image_name_podman_idempotent :
    _normalize_image_name .PODMAN false "docker.io/library/python:3.11" =
      "docker.io/library/python:3.11" ∧
    _normalize_image_name .PODMAN false "python:3.11" = "python:3.11" ∧
    _normalize_image_name .PODMAN false "myorg/myimage:latest" =
      "docker.io/myorg/myimage:latest" ∧
    ∀ s : String, _normalize_image_name .PODMAN false
        (_normalize_image_name .PODMAN false s) =
      _normalize_image_name .PODMAN false s := by
  refine ⟨by decide, by decide, by decide, ?_⟩
  intro s
  show normalizeQualify (normalizeQualify s) = normalizeQualify s
  by_cases h : (!(pyStartsWith s "docker.io/") && strContains s "/") = true
  · have h2 : normalizeQualify s = "docker.io/" ++ s := by
      unfold normalizeQualify
      simp [h]
    rw [h2]
    unfold normalizeQualify
    rw [normalizeQualify_startsWith s]
    simp
  · have hc : (!(pyStartsWith s "docker.io/") && strContains s "/") = false := by
      revert h
      cases !(pyStartsWith s "docker.io/") && strContains s "/" <;> simp
    have h2 : normalizeQualify s = s := by
      unfold normalizeQualify
      simp [hc]
    rw [h2, h2]

theorem dropWhile_shape (p : Char → Bool) (l : List Char) :
    l.dropWhile p = [] ∨ ∃ x t, l.dropWhile p = x :: t ∧ p x = false := by
  induction l with
  | nil => exact .inl rfl
  | cons a as ih =>
    cases hpa : p a with
    | true =>
      rw [List.dropWhile_cons, hpa]
      simpa using ih
    | false =>
      right
      exact ⟨a, as, by rw [List.dropWhile_cons, hpa]; simp, hpa⟩

theorem rstrip_append (p : Char → Bool) (x : Char) (hx : p x = false) :
    ∀ a : List Char, ∃ r, (a ++ [x]).dropWhile p = r ++ [x]
  | [] => ⟨[], by simp [List.dropWhile_cons, hx]⟩
  | b :: bs => by
    cases hb : p b with
    | true =>
      obtain ⟨r, hr⟩ := rstrip_append p x hx bs
      exact ⟨r, by rw [List.cons_append, List.dropWhile_cons, hb]; simpa using hr⟩
    | false =>
      exact ⟨b :: bs, by rw [List.cons_append, List.dropWhile_cons, hb]; simp⟩

theorem rstrip_cons (x : Char) (t : List Char) (hx : x.isWhitespace = false) :
    ∃ t', ((x :: t).reverse.dropWhile Char.isWhitespace).reverse = x :: t' := by
  rw [List.reverse_cons]
  obtain ⟨r, hr⟩ := rstrip_append Char.isWhitespace x hx t.reverse
  rw [hr]
  exact ⟨r.reverse, by simp⟩

theorem pyStripList_cons (x : Char) (t : List Char) (hx : x.isWhitespace = false) :
    ∃ t', pyStripList (x :: t) = x :: t' := by
  have hd : (x :: t).dropWhile Char.isWhitespace = x :: t := by
    rw [List.dropWhile_cons, hx]
    simp
  unfold pyStripList
  rw [hd]
  exact rstrip_cons x t hx

theorem pyStripList_shape (l : List Char) :
    pyStripList l = [] ∨ ∃ x t, pyStripList l = x :: t ∧ x.isWhitespace = false := by
  rcases dropWhile_shape Char.isWhitespace l with h | ⟨x, t, h, hx⟩
  · left
    unfold pyStripList
    rw [h]
    rfl
  · right
    obtain ⟨t', ht'⟩ := rstrip_cons x t hx
    refine ⟨x, t', ?_, hx⟩
    unfold pyStripList
    rw [h]
    exact ht'

theorem pyStrip_cons_ne_empty (x : Char) (t : List Char) (hx : x.isWhitespace = false) :
    pyStrip ⟨x :: t⟩ ≠ "" := by
  obtain ⟨t', ht'⟩ := pyStripList_cons x t hx
  unfold pyStrip
  show (⟨pyStripList (x :: t)⟩ : String) ≠ ""
  rw [ht']
  intro hcontra
  have hdata := congrArg String.data hcontra
  simp at hdata

theorem splitOnChar_cons_head (c x : Char) (t : List Char) (h : ¬x = c) :
    ∃ s ss, splitOnChar c (x :: t) = (x :: s) :: ss := by
  have he : splitOnChar c (x :: t) =
      match splitOnChar c t with
      | [] => [[x]]
      | s :: ss => (x :: s) :: ss := by
    conv_lhs => unfold splitOnChar
    rw [if_neg h]
  rcases hs : splitOnChar c t with _ | ⟨s, ss⟩
  · rw [hs] at he
    exact ⟨[], [], he⟩
  · rw [hs] at he
    exact ⟨s, ss, he⟩

/-- Claim C9: `_parse_docker_ps_output` is total (a Lean function) and its
result is exactly the claim's per-line description applied to every line of
the stripped output: blank lines skipped, lines splitting into fewer than
seven pipe-delimited parts dropped, and each line with at least seven parts
contributing a record of its first seven fields, stripped. -/
theorem parse_docker_ps_output_matches_claim (output : String) :
    _parse_docker_ps_output output = psParseClaim output := by
  unfold _parse_docker_ps_output psParseClaim
  rcases pyStripList_shape output.data with h | ⟨x, t, h, hx⟩
  · have h0 : pyStrip output = "" := by
      unfold pyStrip
      rw [h]
    rw [h0]
    rfl
  · have hxn : ¬x = '\n' := by
      intro hxe
      rw [hxe] at hx
      simp at hx
    obtain ⟨s, ss, hsplit⟩ := splitOnChar_cons_head '\n' x t hxn
    have hlines : pySplit '\n' (pyStrip output) =
        (x :: s).asString :: ss.map List.asString := by
      unfold pySplit pyStrip
      rw [h]
      show (splitOnChar '\n' (x :: t)).map List.asString = _
      rw [hsplit]
      rfl
    rw [hlines]
    have hne : pyStrip (x :: s).asString ≠ "" := pyStrip_cons_ne_empty x s hx
    show (if pyStrip (x :: s).asString = "" then []
          else ((x :: s).asString :: ss.map List.asString).filterMap psLineRecord) = _
    rw [if_neg hne]
    rfl

/-! ### Probe and selection theorems (claims C3, C4, C7, C10) -/

theorem checkSimpleAvailable_no_raise (whichPath : Option String) (v : SpawnOutcomeNT)
    (hv : v ≠ .permissionDenied) :
    ∃ b, checkSimpleAvailable whichPath v = .ok b := by
  cases whichPath with
  | none => exact ⟨false, rfl⟩
  | some p =>
    cases v with
    | ok out err rc =>
      by_cases hrc : rc ≠ 0
      · exact ⟨false, by simp [checkSimpleAvailable, hrc]⟩
      · exact ⟨true, by simp [checkSimpleAvailable, hrc]⟩
    | fileNotFound => exact ⟨false, rfl⟩
    | permissionDenied => exact absurd rfl hv

theorem checkDockerBuildxExcept_no_raise (w : ProbeWorld)
    (h5 : w.dockerInfoFallback ≠ .permissionDenied) :
    ∃ b, checkDockerBuildxExcept w = .ok b := by
  unfold checkDockerBuildxExcept
  cases w.whichPodman with
  | some p => exact ⟨false, rfl⟩
  | none =>
    cases hf : w.dockerInfoFallback with
    | ok out err rc =>
      by_cases hrc : rc ≠ 0
      · exact ⟨false, by simp [hrc]⟩
      · exact ⟨true, by simp [hrc]⟩
    | fileNotFound => exact ⟨false, rfl⟩
    | permissionDenied => exact absurd hf h5

theorem checkDockerBuildx_no_raise (w : ProbeWorld)
    (h3 : w.dockerBuildx ≠ .permissionDenied) (h4 : w.dockerInfo ≠ .permissionDenied)
    (h5 : w.dockerInfoFallback ≠ .permissionDenied) :
    ∃ b, checkDockerBuildx w = .ok b := by
  unfold checkDockerBuildx
  cases hb : w.dockerBuildx with
  | ok out err rc =>
    by_cases hrc : rc ≠ 0
    · simpa [hrc] using checkDockerBuildxExcept_no_raise w h5
    · simp only [hrc, if_false]
      by_cases hsig : (strContains (out ++ err) "github.com/docker/buildx" ||
          strContains (out ++ err) "buildx v") = true
      · simp only [hsig, if_true]
        cases hi : w.dockerInfo with
        | ok iout ierr irc =>
          by_cases hirc : irc ≠ 0
          · simpa [hirc] using checkDockerBuildxExcept_no_raise w h5
          · exact ⟨true, by simp [hirc]⟩
        | fileNotFound => exact checkDockerBuildxExcept_no_raise w h5
        | permissionDenied => exact absurd hi h4
      · simp only [Bool.not_eq_true] at hsig
        exact ⟨false, by simp [hsig]⟩
  | fileNotFound => exact checkDockerBuildxExcept_no_raise w h5
  | permissionDenied => exact absurd hb h3

theorem checkDockerStep2_no_raise (w : ProbeWorld)
    (h2 : w.dockerVersion ≠ .permissionDenied)
    (h3 : w.dockerBuildx ≠ .permissionDenied) (h4 : w.dockerInfo ≠ .permissionDenied)
    (h5 : w.dockerInfoFallback ≠ .permissionDenied) :
    ∃ b, checkDockerStep2 w = .ok b := by
  unfold checkDockerStep2
  cases hv : w.dockerVersion with
  | ok out err rc =>
    by_cases hrc : rc ≠ 0
    · exact ⟨false, by simp [hrc]⟩
    · simpa [hrc] using checkDockerBuildx_no_raise w h3 h4 h5
  | fileNotFound => exact ⟨false, rfl⟩
  | permissionDenied => exact absurd hv h2

/-- Counterexample to claim C7: when spawning `apptainer --version` fails with
a permission error, the probe does not return false — the `PermissionError`
escapes, because the handlers at lines 222 and 292 list only
`TimeoutExpired`, `FileNotFoundError` and `CalledProcessError`. -/
theorem check_runtime_available_permission_error_escapes :
    _check_runtime_available permDeniedProbeWorld .APPTAINER =
      .error .permissionError := rfl

/-- Amended claim C7: for every runtime, as long as no spawn reports a
permission-denied failure, the availability probe never raises — every
handled spawn failure (`CalledProcessError`, `FileNotFoundError`,
`TimeoutExpired`) is downgraded to a boolean result. -/
theorem check_runtime_available_no_raise (w : ProbeWorld) (r : ContainerRuntime)
    (h : w.noPermissionDenied) :
    ∃ b, _check_runtime_available w r = .ok b := by
  obtain ⟨h1, h2, h3, h4, h5, h6, h7, h8⟩ := h
  cases r with
  | APPTAINER => exact checkSimpleAvailable_no_raise _ _ h6
  | SINGULARITY => exact checkSimpleAvailable_no_raise _ _ h7
  | PODMAN => exact checkSimpleAvailable_no_raise _ _ h8
  | DOCKER =>
    show ∃ b, checkDockerAvailable w = .ok b
    unfold checkDockerAvailable
    cases w.whichDocker with
    | none => exact ⟨false, rfl⟩
    | some p =>
      cases hv : w.dockerVersionT with
      | ok out err rc =>
        by_cases hpd : strContains (pyLower (out ++ err)) "podman" = true
        · exact ⟨false, by simp [hpd]⟩
        · simp only [Bool.not_eq_true] at hpd
          simpa [hpd] using checkDockerStep2_no_raise w h2 h3 h4 h5
      | timeoutExpired => exact checkDockerStep2_no_raise w h2 h3 h4 h5
      | fileNotFound => exact checkDockerStep2_no_raise w h2 h3 h4 h5
      | permissionDenied => exact absurd hv h1

theorem check_runtime_available_no_raise_witness :
    trivialProbeWorld.noPermissionDenied ∧
    ∃ b, _check_runtime_available trivialProbeWorld .DOCKER = .ok b :=
  ⟨by unfold ProbeWorld.noPermissionDenied trivialProbeWorld; decide,
   check_runtime_available_no_raise trivialProbeWorld .DOCKER
     (by unfold ProbeWorld.noPermissionDenied trivialProbeWorld; decide)⟩

/-- Claim C3: with no host-runtime hint and probe results fixed by `avail`,
selection returns the first available runtime in the order Apptainer,
Singularity, Podman, Docker; in particular whenever Apptainer is available
(HPC or not, Docker available or not) it returns Apptainer. -/
theorem detect_best_runtime_first_preferred
    (w : ProbeWorld) (isHpc : Bool) (envRuntime : Option ContainerRuntime)
    (avail : ContainerRuntime → Bool)
    (H : ∀ r, _check_runtime_available w r = .ok (avail r))
    (Hsome : (avail .APPTAINER || avail .SINGULARITY ||
              avail .PODMAN || avail .DOCKER) = true) :
    _detect_best_runtime none isHpc w envRuntime =
      .ok ((firstPreferred avail).getD .DOCKER) ∧
    (avail .APPTAINER = true →
      _detect_best_runtime none isHpc w envRuntime = .ok .APPTAINER) := by
  have hA := H .APPTAINER
  have hS := H .SINGULARITY
  have hP := H .PODMAN
  have hD := H .DOCKER
  cases hA' : avail .APPTAINER <;> cases hS' : avail .SINGULARITY <;>
    cases hP' : avail .PODMAN <;> cases hD' : avail .DOCKER <;>
    rw [hA'] at hA <;> rw [hS'] at hS <;> rw [hP'] at hP <;> rw [hD'] at hD <;>
    cases isHpc <;>
    simp_all [_detect_best_runtime, detectHpc, detectGeneral, firstPreferred]

theorem detect_best_runtime_first_preferred_witness :
    _detect_best_runtime none true dockerOnlyProbeWorld none = .ok .DOCKER :=
  (detect_best_runtime_first_preferred dockerOnlyProbeWorld true none availDockerOnly
    (by intro r; cases r <;> rfl) rfl).1

/-- Claim C4: a `docker` binary whose version output contains "podman"
(case-insensitively) makes the Docker probe return false, and — with
Apptainer and Singularity unavailable, Podman available and no hint —
selection returns Podman. -/
theorem docker_shim_prefers_podman
    (w : ProbeWorld) (isHpc : Bool) (envRuntime : Option ContainerRuntime)
    (p out err : String) (rc : Int)
    (hdock : w.whichDocker = some p)
    (hver : w.dockerVersionT = .ok out err rc)
    (hpod : strContains (pyLower (out ++ err)) "podman" = true)
    (hA : _check_runtime_available w .APPTAINER = .ok false)
    (hS : _check_runtime_available w .SINGULARITY = .ok false)
    (hP : _check_runtime_available w .PODMAN = .ok true) :
    _check_runtime_available w .DOCKER = .ok false ∧
    _detect_best_runtime none isHpc w envRuntime = .ok .PODMAN := by
  constructor
  · show checkDockerAvailable w = .ok false
    unfold checkDockerAvailable
    rw [hdock, hver]
    simp [hpod]
  · cases isHpc <;>
      simp [_detect_best_runtime, detectHpc, detectGeneral, hA, hS, hP]

theorem docker_shim_prefers_podman_witness :
    _check_runtime_available shimProbeWorld .DOCKER = .ok false ∧
    _detect_best_runtime none false shimProbeWorld none = .ok .PODMAN :=
  docker_shim_prefers_podman shimProbeWorld false none "/usr/bin/docker"
    "podman version 4.9.0" "" 0 rfl rfl (by decide) rfl rfl rfl

/-- Claim C10: a `VENVOY_HOST_RUNTIME` value that is not one of the four
lower-case runtime names is silently ignored — selection behaves exactly as
with the variable unset. -/
theorem detect_best_runtime_unknown_hint
    (s : String) (isHpc : Bool) (w : ProbeWorld) (envRuntime : Option ContainerRuntime)
    (h : runtime_map s = none) :
    _detect_best_runtime (some s) isHpc w envRuntime =
      _detect_best_runtime none isHpc w envRuntime := by
  unfold _detect_best_runtime
  by_cases hs : s = ""
  · simp [hs]
  · simp [hs, h]

theorem detect_best_runtime_unknown_hint_witness :
    runtime_map "Docker" = none ∧
    _detect_best_runtime (some "Docker") false trivialProbeWorld (some .DOCKER) =
      _detect_best_runtime none false trivialProbeWorld (some .DOCKER) :=
  ⟨rfl, detect_best_runtime_unknown_hint "Docker" false trivialProbeWorld
    (some .DOCKER) rfl⟩

/-! ### Command-builder theorems (claims C1, C2) -/

/-- Claim C1 (code-bug evidence): dispatching an Apptainer run through
`_build_run_command` does not produce the apptainer argument vector — it
raises `TypeError`, because the dispatcher (lines 635-637) passes
`working_dir` while `_build_apptainer_run_command` (lines 691-700) accepts no
such parameter. -/
theorem build_run_command_apptainer_type_error :
    _build_run_command .APPTAINER "/root/.venvoy/si" true "python:3.11" "venvoy-env"
        (some "python") [("/data", "/workspace/data")] [] [("PYTHONUNBUFFERED", "1")]
        false (some "/workspace") =
      .error (.typeError
        "_build_apptainer_run_command() takes from 3 to 8 positional arguments but 9 were given") :=
  rfl

/-- Claim C2 (code-bug evidence): the build invocation assembled by
`build_image` (lines 898-922) places the bare string "-" — not the flag
"-f" — immediately before the Dockerfile path, for Docker and for Podman. -/
theorem build_image_cmd_uses_dash_not_dash_f :
    build_image_cmd .DOCKER "/env/Dockerfile" "venvoy/venvoy:latest" "/env" "unused" =
      ["docker", "build", "-t", "venvoy/venvoy:latest", "-", "/env/Dockerfile", "/env"] ∧
    build_image_cmd .PODMAN "/env/Dockerfile" "venvoy/venvoy:latest" "/env" "unused" =
      ["podman", "build", "-t", "venvoy/venvoy:latest", "-", "/env/Dockerfile", "/env"] :=
  ⟨rfl, rfl⟩

/-! ### run_container theorems (claims C5, C6) -/

/-- Counterexample to claim C5: a synchronous (detach=false) Podman run whose
launch subprocess exits with status 2 does not propagate an execution-failure
error — `run_container` returns the plain value `False` (the
`except subprocess.CalledProcessError` handler at lines 614-616). -/
theorem run_container_sync_failure_returns_false :
    run_container .PODMAN failedLaunchRunWorld "/root/.venvoy/si" true "python:3.11"
        "venvoy-env" (some "python") [] [] [] false none = .ok .retFalse := rfl

/-- Amended claim C5: for every synchronous (detach=false) Podman
`run_container` invocation whose launch subprocess exits non-zero, the
`CalledProcessError` raised by `check=True` is caught by the method-level
handler, which prints a message and returns `False`; no exception reaches the
caller and no container handle is returned. -/
theorem run_container_sync_failure_swallowed
    (w : RunWorld) (sifDir : String) (sifExists : Bool) (image name : String)
    (command : Option String) (volumes ports environment : List (String × String))
    (working_dir : Option String) (out err : String) (rc : Int)
    (hlaunch : w.launch = .ok out err rc) (hrc : rc ≠ 0) :
    run_container .PODMAN w sifDir sifExists image name command volumes ports
        environment false working_dir = .ok .retFalse := by
  unfold run_container
  simp only [_build_run_command]
  rw [hlaunch]
  simp [hrc]

theorem run_container_sync_failure_swallowed_witness :
    failedLaunchRunWorld.launch = .ok "" "Error: image not known" 2 ∧
    run_container .PODMAN failedLaunchRunWorld "/root/.venvoy/si" false "python:3.11"
        "venvoy-env" none [] [] [] false none = .ok .retFalse :=
  ⟨rfl, run_container_sync_failure_swallowed failedLaunchRunWorld "/root/.venvoy/si"
    false "python:3.11" "venvoy-env" none [] [] [] none "" "Error: image not known" 2
    rfl (by decide)⟩

/-- Claim C6: a detached Podman run whose launch exits zero but whose
`podman ps` line (filtered by the container's name) reports a status
containing neither "Up" nor "running" case-insensitively raises
`RuntimeError`, and the error message carries the container's log text. -/
theorem run_container_detached_integrity
    (w : RunWorld) (sifDir : String) (sifExists : Bool) (image name : String)
    (command : Option String) (volumes ports environment : List (String × String))
    (working_dir : Option String)
    (lo le p ps pe line cid status lout lerr : String)
    (hlaunch : w.launch = .ok lo le 0)
    (hpod : w.whichPodman = some p)
    (hps : w.psFiltered = .ok ps pe 0)
    (hns : pyStrip ps ≠ "")
    (hlines : pySplit '\n' (pyStrip ps) = [line])
    (hbar : strContains line "|" = true)
    (hsplit : pySplit1 '|' line = (cid, status))
    (hup : strContains status "Up" = false)
    (hrun : strContains (pyLower status) "running" = false)
    (hlogs : w.logs cid = .ok lout lerr 0) :
    run_container .PODMAN w sifDir sifExists image name command volumes ports
        environment true working_dir =
      .error (.runtimeError
        ("Container " ++ name ++ " (ID: " ++ cid ++
         ") started but exited immediately. Status: " ++ status ++
         "\nContainer logs:\n" ++ pyStrip lout)) := by
  unfold run_container
  simp only [_build_run_command]
  rw [hlaunch]
  simp [detachVerify, hpod, hps, hns, hlines, checkPsLines, hbar, hsplit, hup, hrun,
    getLogs, hlogs]

theorem run_container_detached_integrity_witness :
    run_container .PODMAN exitedRunWorld "/root/.venvoy/si" true "python:3.11"
        "venvoy-test" none [] [] [] true none =
      .error (.runtimeError
        ("Container venvoy-test (ID: abc123def456) started but exited immediately. " ++
         "Status: Exited (1) 2 seconds ago\nContainer logs:\nTraceback: boom")) :=
  run_container_detached_integrity exitedRunWorld "/root/.venvoy/si" true "python:3.11"
    "venvoy-test" none [] [] [] none "abc123def456" "" "/usr/bin/podman"
    "abc123def456|Exited (1) 2 seconds ago" "" "abc123def456|Exited (1) 2 seconds ago"
    "abc123def456" "Exited (1) 2 seconds ago" "Traceback: boom" ""
    rfl rfl rfl (by decide) rfl rfl rfl rfl rfl rfl

end Venvoy
